import Mathlib

/-!
Verification development for `filebrowser_safe/base.py`.

The file shallowly embeds the two classes of the source, `FileListing` and
`FileObject`, together with the external collaborators they call (the Django
storage backend, `os.path` helpers, and the helpers of
`filebrowser_safe.functions`, which are not part of the repository snapshot
and are therefore modelled from the spec where needed).

Conventions of the embedding:
* Python `None` is `Option.none`; a memoization slot `_x_stored = None`
  becomes a field of type `Option _`.
* Python exceptions are values of `PyErr`; a method that can raise returns
  `Except PyErr _`.  Because exceptions leave already-performed attribute
  assignments in place, stateful methods return the updated object next to
  the `Except` value.
* Backend calls are recorded in a `Query` log where a claim is about how
  many backend queries are issued.
* Machine integers do not occur; sizes are `Nat`, timestamps are `Int`.
-/

/-- Python exception kinds that the source can raise or catch:
`TypeError` (unexpected keyword argument), `AttributeError` (reading an
attribute that was never assigned and has no class default),
`UnicodeDecodeError` (decoding failure inside the backend's `listdir`),
`FileSystemEncodingChanged` (from `mezzanine.core.exceptions`, raised by
`_is_empty`), and a generic backend `OSError` for a failing delete. -/
inductive PyErr where
  | typeError
  | attributeError
  | unicodeDecodeError
  | fileSystemEncodingChanged
  | oserror
deriving DecidableEq

/-- One query issued to the storage backend (`default_storage` or
`site.storage` in the source).  Used to state "no further backend query is
issued" and "exactly one deletion is attempted per path". -/
inductive Query where
  | q_exists (p : String)
  | q_size (p : String)
  | q_modified (p : String)
  | q_isdir (p : String)
  | q_listdir (p : String)
  | q_delete (p : String)
deriving DecidableEq

/-- String prefix test, computed on the character lists (so that it reduces
by plain structural recursion). -/
def strStartsWith (s pre : String) : Bool :=
  pre.data.isPrefixOf s.data

/-- String suffix test, computed on the character lists. -/
def strEndsWith (s suf : String) : Bool :=
  suf.data.reverse.isPrefixOf s.data.reverse

/-- Dropping the first `n` characters of a string, computed on the
character list. -/
def strDrop (s : String) (n : Nat) : String :=
  String.mk (s.data.drop n)

/-- Models Python's `os.path.join(p, d)` for POSIX paths: an absolute second
argument replaces the first, otherwise the two parts are joined with a `/`
separator (no separator is doubled). -/
def pathJoin (p d : String) : String :=
  if strStartsWith d "/" then d
  else if p = "" then d
  else if strEndsWith p "/" then p ++ d
  else p ++ "/" ++ d

/-- Modelled from the spec: `path_strip` comes from
`filebrowser_safe.functions`, which is not in the repository snapshot.  Per
the spec, names are "expressed relative to a configured root directory via a
path-stripping transform": when `root` is a leading piece of `p` it is
removed, otherwise `p` is returned unchanged. -/
def path_strip (p root : String) : String :=
  if strStartsWith p root then strDrop p root.length else p

/-- Models Python's `os.path.basename`: the part of the path after the last
`/` (empty when the path ends in `/`). -/
def pathBasename (p : String) : String :=
  String.mk ((p.toList.reverse.takeWhile (fun c => c ≠ '/')).reverse)

/-- Models Python's `os.path.dirname`: everything before the last `/`, with
trailing slashes stripped unless the result consists only of slashes. -/
def pathDirname (p : String) : String :=
  let head := (p.toList.reverse.dropWhile (fun c => c ≠ '/')).reverse
  if head.all (fun c => c = '/') then String.mk head
  else String.mk ((head.reverse.dropWhile (fun c => c = '/')).reverse)

/-- Index of the `.` at which Python's `os.path.splitext` splits: the last
dot that has at least one non-dot character to its left (so names made only
of leading dots have no extension). -/
def splitextIdx (cs : List Char) : Option Nat :=
  (List.range cs.length).foldl
    (fun acc i =>
      if cs.getD i ' ' = '.' ∧ (cs.take i).any (fun c => c ≠ '.') then some i else acc)
    none

/-- Models Python's `os.path.splitext`: splits a filename into root and
extension, where the extension includes its leading dot. -/
def splitext (s : String) : String × String :=
  match splitextIdx s.toList with
  | none => (s, "")
  | some i => (String.mk (s.toList.take i), String.mk (s.toList.drop i))

/-- The storage backend capability used by both classes (Django's
`default_storage` / `site.storage`).  `listdir` returns the pair
(subdirectories, files) and may raise (for example `UnicodeDecodeError`
under exotic filename encodings); the remaining queries are modelled as
total.  The source name `exists` is a Lean keyword, hence `fexists`. -/
structure Storage where
  isdir : String → Bool
  listdir : String → Except PyErr (List String × List String)
  fexists : String → Bool
  size : String → Nat
  modified_time : String → Int

/-- Ambient collaborators of `FileObject`: the process-wide
`default_storage`, `get_file_type` from `filebrowser_safe.functions`
(not in the snapshot; modelled from the spec as an opaque extension→category
classification), `mimetypes.guess_type` (modelled as an opaque guess
function), and `get_directory()` (the configured root directory). -/
structure Env where
  storage : Storage
  get_file_type : String → String
  guess_type : String → Option String
  directory : String

/-- The `FileObject` of base.py: the constructed name fields (lines 210-216)
plus the five lazy memoization slots used by the cached attributes
(`_filetype_stored`, `_filesize_stored`, `_date_stored`, `_exists_stored`,
`_is_folder_stored`), each initially `None`. -/
structure FileObject where
  path : String
  head : String
  filename : String
  filename_lower : String
  filename_root : String
  extension : String
  mimetype : Option String
  _filetype_stored : Option String
  _filesize_stored : Option Nat
  _date_stored : Option Int
  _exists_stored : Option Bool
  _is_folder_stored : Option Bool
deriving DecidableEq

/-- Models `FileObject.__init__` (lines 210-216): derives the name fields
from the path; every memoization slot starts as `None`. -/
def FileObject.init (env : Env) (path : String) : FileObject :=
  let filename := pathBasename path
  { path := path
    head := pathDirname path
    filename := filename
    filename_lower := filename.toLower
    filename_root := (splitext filename).1
    extension := (splitext filename).2
    mimetype := env.guess_type filename
    _filetype_stored := none
    _filesize_stored := none
    _date_stored := none
    _exists_stored := none
    _is_folder_stored := none }

/-- Models `FileObject.exists` (lines 275-280): memoized backend existence
check.  Returns the value, the updated object, and the backend queries
issued by this call. -/
def FileObject.fexists (fo : FileObject) (env : Env) : Bool × FileObject × List Query :=
  match fo._exists_stored with
  | some b => (b, fo, [])
  | none =>
      let b := env.storage.fexists fo.path
      (b, { fo with _exists_stored := some b }, [Query.q_exists fo.path])

/-- Models `FileObject._is_folder` (lines 303-309): memoized backend
directory check. -/
def FileObject.is_folder (fo : FileObject) (env : Env) : Bool × FileObject × List Query :=
  match fo._is_folder_stored with
  | some b => (b, fo, [])
  | none =>
      let b := env.storage.isdir fo.path
      (b, { fo with _is_folder_stored := some b }, [Query.q_isdir fo.path])

/-- Models `FileObject._filetype` (lines 235-245): `"Folder"` for folders,
otherwise the external classification of the filename; memoized. -/
def FileObject.filetype (fo : FileObject) (env : Env) : String × FileObject × List Query :=
  match fo._filetype_stored with
  | some t => (t, fo, [])
  | none =>
      match fo.is_folder env with
      | (b, fo1, qs) =>
          let t := if b then "Folder" else env.get_file_type fo1.filename
          (t, { fo1 with _filetype_stored := some t }, qs)

/-- Models `FileObject._filesize` (lines 247-256): backend size when the
entity exists (memoized), `None` otherwise (and in that case the slot is
left unset, exactly as in the source). -/
def FileObject.filesize (fo : FileObject) (env : Env) : Option Nat × FileObject × List Query :=
  match fo._filesize_stored with
  | some n => (some n, fo, [])
  | none =>
      match fo.fexists env with
      | (true, fo1, qs) =>
          let n := env.storage.size fo1.path
          (some n, { fo1 with _filesize_stored := some n }, qs ++ [Query.q_size fo1.path])
      | (false, fo1, qs) => (none, fo1, qs)

/-- Models `FileObject._date` (lines 258-267): backend modification time
when the entity exists (memoized), `None` otherwise.  The composition
`time.mktime(....timetuple())` is modelled by the backend returning the
timestamp directly. -/
def FileObject.date (fo : FileObject) (env : Env) : Option Int × FileObject × List Query :=
  match fo._date_stored with
  | some d => (some d, fo, [])
  | none =>
      match fo.fexists env with
      | (true, fo1, qs) =>
          let d := env.storage.modified_time fo1.path
          (some d, { fo1 with _date_stored := some d }, qs ++ [Query.q_modified fo1.path])
      | (false, fo1, qs) => (none, fo1, qs)

/-- Models `FileObject._is_empty` (lines 311-321): for a folder, lists the
directory; a `UnicodeDecodeError` from the backend is caught and replaced by
`FileSystemEncodingChanged`, any other exception propagates; the value is
true exactly when the folder has no subdirectories and no files.  For a
non-folder the value is false. -/
def FileObject.is_empty (fo : FileObject) (env : Env) :
    Except PyErr Bool × FileObject × List Query :=
  match fo.is_folder env with
  | (true, fo1, qs) =>
      match env.storage.listdir fo1.path with
      | Except.error PyErr.unicodeDecodeError =>
          (Except.error PyErr.fileSystemEncodingChanged, fo1, qs ++ [Query.q_listdir fo1.path])
      | Except.error e => (Except.error e, fo1, qs ++ [Query.q_listdir fo1.path])
      | Except.ok (ds, fs) =>
          (Except.ok (ds.isEmpty && fs.isEmpty), fo1, qs ++ [Query.q_listdir fo1.path])
  | (false, fo1, qs) => (Except.ok false, fo1, qs)

/-- Models `default_storage.delete` on a storage whose contents are the list
of existing paths: deleting an existing path removes it, deleting a missing
path raises. -/
def storage_delete (p : String) (fs : List String) : Except PyErr (List String) :=
  if p ∈ fs then Except.ok (fs.erase p) else Except.error PyErr.oserror

/-- One iteration of the loop in `delete_versions` (lines 331-335): a
deletion is attempted and any failure is silently swallowed
(`try ... except: pass`); the attempt is recorded in the log either way. -/
def deleteStep (acc : List String × List Query) (v : String) : List String × List Query :=
  match storage_delete v acc.1 with
  | Except.ok fs2 => (fs2, acc.2 ++ [Query.q_delete v])
  | Except.error _ => (acc.1, acc.2 ++ [Query.q_delete v])

/-- Models `FileObject.delete_versions` (lines 330-335).  `self.versions()`
is not defined anywhere in the snapshot; modelled from the spec: the
versions are "an externally supplied list of version file paths", passed
here as the `versions` argument.  The storage contents are threaded
explicitly; the result is the final contents and the log of attempted
deletions.  The body cannot raise: every delete sits inside the
`try/except`. -/
def FileObject.delete_versions (versions : List String) (fs : List String) :
    List String × List Query :=
  versions.foldl deleteStep (fs, [])

/-- Models `FileObject.delete_admin_versions` (lines 337-342): the same
best-effort loop over the externally supplied `admin_versions()` list. -/
def FileObject.delete_admin_versions (adminVersions : List String) (fs : List String) :
    List String × List Query :=
  adminVersions.foldl deleteStep (fs, [])

/-- Truthiness of the optional string fields of `FileListing`
(`if self.sorting_by:` in Python): `None` and the empty string are falsy. -/
def truthyStr : Option String → Bool
  | none => false
  | some s => !s.isEmpty

/-- The comparison that `sort_by_attr` effectively sorts by: Python compares
the tuples `(seq[i].attr, i, seq[i])` lexicographically, and because the
indices `i` are pairwise distinct the third component is never inspected
(the docstring of `sort_by_attr` says exactly this).  So the effective key
is the pair (attribute value, original index), ordered lexicographically. -/
def lePairNat {K : Type u} [LinearOrder K] (x y : K × Nat) : Prop :=
  x.1 < y.1 ∨ (x.1 = y.1 ∧ x.2 ≤ y.2)

instance {K : Type u} [LinearOrder K] : DecidableRel (lePairNat (K := K)) := fun x y => by
  unfold lePairNat
  infer_instance

/-- The ordering of `lePairNat` lifted to the annotated triples
`((attribute value, original index), element)` built by `sort_by_attr`. -/
def leTriple {K : Type u} {α : Type v} [LinearOrder K] (x y : (K × Nat) × α) : Prop :=
  lePairNat x.1 y.1

instance {K : Type u} {α : Type v} [LinearOrder K] :
    DecidableRel (leTriple (K := K) (α := α)) := fun x y => by
  unfold leTriple lePairNat
  infer_instance

instance {K : Type u} {α : Type v} [LinearOrder K] :
    IsTotal ((K × Nat) × α) leTriple := by
  constructor
  intro x y
  rcases lt_trichotomy x.1.1 y.1.1 with h | h | h
  · exact Or.inl (Or.inl h)
  · rcases Nat.le_total x.1.2 y.1.2 with h2 | h2
    · exact Or.inl (Or.inr ⟨h, h2⟩)
    · exact Or.inr (Or.inr ⟨h.symm, h2⟩)
  · exact Or.inr (Or.inl h)

instance {K : Type u} {α : Type v} [LinearOrder K] :
    IsTrans ((K × Nat) × α) leTriple := by
  constructor
  intro x y z hxy hyz
  rcases hxy with h1 | ⟨h1, h1'⟩
  · rcases hyz with h2 | ⟨h2, _⟩
    · exact Or.inl (h1.trans h2)
    · exact Or.inl (h2 ▸ h1)
  · rcases hyz with h2 | ⟨h2, h2'⟩
    · exact Or.inl (h1 ▸ h2)
    · exact Or.inr ⟨h1.trans h2, h1'.trans h2'⟩

/-- Models the `zip(map(getattr, seq, ...), range(len(seq)), seq)` step of
`sort_by_attr` (line 78): every element is annotated with its attribute
value and its original index, starting from `i`. -/
def annotate {α : Type v} {K : Type u} (key : α → K) : Nat → List α → List ((K × Nat) × α)
  | _, [] => []
  | i, a :: rest => ((key a, i), a) :: annotate key (i + 1) rest

/-- The sorted auxiliary list of `sort_by_attr` (line 78, the "Schwartzian
transform"): the annotated list sorted by the lexicographic order on
(attribute value, original index).  Python's `sorted` is a stable total
sort; because the pair keys are pairwise distinct every correct sort
produces the same list, so `insertionSort` is a faithful model. -/
def sortIntermed {α : Type} {K : Type} [LinearOrder K] (key : α → K) (seq : List α) :
    List ((K × Nat) × α) :=
  List.insertionSort leTriple (annotate key 0 seq)

/-- Models `FileListing.sort_by_attr` (lines 60-79): sorts a sequence by a
named attribute of its elements.  The dynamic `getattr(obj, attr)` lookup is
modelled by the key function `key`; the final `map(operator.getitem, ..., -1)`
projects the annotated triples back to the elements. -/
def sort_by_attr {α : Type} {K : Type} [LinearOrder K] (key : α → K) (seq : List α) :
    List α :=
  (sortIntermed key seq).map (fun t => t.2)

/-- The site handed to `FileListing` (`filebrowser.sites.site`): the
configured root `directory`, the storage backend, and `attrKey`, which
models Python's `getattr(entry, name)` for the attribute named by
`sorting_by` (attribute values are modelled as integers). -/
structure Site where
  directory : String
  storage : Storage
  attrKey : String → FileObject → Int

/-- The `FileListing` of base.py: constructor arguments (lines 47-55)
plus the mutable memoization state.  The class body (lines 40-45) declares
`_results_listing_total`, `_results_walk_total` (twice — line 45 repeats it)
and `_results_listing_filtered` with default `None`; it never declares
`_results_walk_filtered`, so that attribute is *missing* until
`files_walk_filtered` assigns it.  The field `_results_walk_filtered` is
therefore `Option (Option Nat)`: `none` = attribute missing (reading raises
`AttributeError`), `some none` = attribute present holding `None` (never
reachable through the API, kept to mirror the source's `is not None` test),
`some (some n)` = attribute holding the integer `n`.  `_fileobjects_total`
(line 122) caches the unsorted Entry collection; `_is_folder_stored`
(line 81) memoizes `is_folder`. -/
structure FileListing where
  path : String
  filter_func : Option (FileObject → Bool)
  sorting_by : Option String
  sorting_order : Option String
  site : Site
  _results_listing_total : Option Nat
  _results_walk_total : Option Nat
  _results_listing_filtered : Option Nat
  _results_walk_filtered : Option (Option Nat)
  _fileobjects_total : Option (List FileObject)
  _is_folder_stored : Option Bool

/-- Models `FileListing.__init__` (lines 47-55): stores the arguments; all
memoization state has its class-body default (see the structure docstring). -/
def FileListing.init (path : String) (filter_func : Option (FileObject → Bool))
    (sorting_by sorting_order : Option String) (site : Site) : FileListing :=
  { path := path
    filter_func := filter_func
    sorting_by := sorting_by
    sorting_order := sorting_order
    site := site
    _results_listing_total := none
    _results_walk_total := none
    _results_listing_filtered := none
    _results_walk_filtered := none
    _fileobjects_total := none
    _is_folder_stored := none }

/-- Models the `is_folder` property of `FileListing` (lines 81-86):
memoized `site.storage.isdir(self.path)`. -/
def FileListing.is_folder (fl : FileListing) : Bool × FileListing :=
  match fl._is_folder_stored with
  | some b => (b, fl)
  | none =>
      let b := fl.site.storage.isdir fl.path
      (b, { fl with _is_folder_stored := some b })

/-- Models `FileListing.listing` (lines 88-93): for a folder, the backend's
(dirs, files) concatenated dirs-first; for a non-folder, the empty list.
The backend `listdir` call is not guarded in the source, so its exceptions
propagate. -/
def FileListing.listing (fl : FileListing) : Except PyErr (List String) × FileListing :=
  match fl.is_folder with
  | (true, fl1) =>
      match fl1.site.storage.listdir fl1.path with
      | Except.error e => (Except.error e, fl1)
      | Except.ok (ds, fs) => (Except.ok (ds ++ fs), fl1)
  | (false, fl1) => (Except.ok [], fl1)

/-- The per-subdirectory part of `FileListing._walk` (lines 105-108): for
each subdirectory `d`, first the recursive traversal of `d` is appended,
then `d`'s own root-relative name; `recurse` is the traversal of the next
depth level.  Backend exceptions propagate. -/
def walkDirs (recurse : String → Except PyErr (List String)) (dir path : String) :
    List String → Except PyErr (List String)
  | [] => Except.ok []
  | d :: rest =>
      match recurse (pathJoin path d) with
      | Except.error e => Except.error e
      | Except.ok sub =>
          match walkDirs recurse dir path rest with
          | Except.error e => Except.error e
          | Except.ok l2 =>
              Except.ok (sub ++ [path_strip (pathJoin path d) dir] ++ l2)

/-- One level of `FileListing._walk` (lines 95-112): list the path, handle
every subdirectory (recursion first, then the directory's own name), then
append every file's root-relative name. -/
def walkStep (recurse : String → Except PyErr (List String)) (st : Storage)
    (dir path : String) : Except PyErr (List String) :=
  match st.listdir path with
  | Except.error e => Except.error e
  | Except.ok (ds, fs) =>
      match walkDirs recurse dir path ds with
      | Except.error e => Except.error e
      | Except.ok l1 =>
          Except.ok (l1 ++ fs.map (fun f => path_strip (pathJoin path f) dir))

/-- Models `FileListing._walk` (lines 95-112).  The source recurses without
any bound and diverges on a backend with cyclic directories (its docstring
warns about exactly that); the embedding bounds the recursion depth by
`fuel`, which is immaterial for any acyclic backend once `fuel` exceeds the
tree depth. -/
def walkAux (st : Storage) (dir : String) : Nat → String → Except PyErr (List String)
  | 0, _ => Except.ok []
  | fuel + 1, path => walkStep (walkAux st dir fuel) st dir path

/-- Models `FileListing.walk` (lines 114-119): the recursive traversal for a
folder, the empty list for a non-folder. -/
def FileListing.walk (fl : FileListing) (fuel : Nat) :
    Except PyErr (List String) × FileListing :=
  match fl.is_folder with
  | (true, fl1) => (walkAux fl1.site.storage fl1.site.directory fuel fl1.path, fl1)
  | (false, fl1) => (Except.ok [], fl1)

/-- Models the loop bodies at lines 128-130 and 145-147: one
`FileObject(os.path.join(..., item), site=self.site)` construction per name.
`FileObject.__init__` (line 210) accepts only `path`, but both call sites
pass the keyword argument `site=self.site`; in Python the call therefore
raises `TypeError` before the constructor body runs.  Consequently the loop
raises at the first name and builds nothing, and only an empty iteration
completes. -/
def buildObjects : List String → Except PyErr (List FileObject)
  | [] => Except.ok []
  | _ :: _ => Except.error PyErr.typeError

/-- Models the sort step of `files_listing_total` / `files_walk_total`
(lines 134-137 and 148-151): sort by the named attribute when `sorting_by`
is truthy, then reverse when `sorting_order == "desc"`.  The reversal is the
in-place `files.reverse()`; aliasing is handled by the callers. -/
def FileListing.applySorting (fl : FileListing) (files : List FileObject) :
    List FileObject :=
  let files1 :=
    if truthyStr fl.sorting_by then
      sort_by_attr (fl.site.attrKey (fl.sorting_by.getD "")) files
    else files
  if fl.sorting_order = some "desc" then files1.reverse else files1

/-- Models lines 132-140 of `files_listing_total`, entered with the cached
base collection `base` (`files = self._fileobjects_total`).  When
`sorting_by` is truthy, `sort_by_attr` returns a fresh list, so the
subsequent in-place `files.reverse()` leaves the cache untouched; when it is
falsy, `files` aliases the cache, so the in-place reversal (if any) mutates
the cached collection itself.  Finally `_results_listing_total` is set to
the length of the returned list. -/
def FileListing.finishListing (fl : FileListing) (base : List FileObject) :
    Except PyErr (List FileObject) × FileListing :=
  let files2 := fl.applySorting base
  (Except.ok files2,
    { fl with
        _fileobjects_total := some (if truthyStr fl.sorting_by then base else files2)
        _results_listing_total := some files2.length })

/-- Models `FileListing.files_listing_total` (lines 124-140).  On a cache
miss the source first assigns `self._fileobjects_total = []`, then iterates
`self.listing()` constructing one `FileObject` per name — which raises
`TypeError` at the first name (see `buildObjects`), leaving the cache as the
empty list.  On a cache hit, or after an empty build, sorting and the count
update proceed (see `finishListing`). -/
def FileListing.files_listing_total (fl : FileListing) :
    Except PyErr (List FileObject) × FileListing :=
  match fl._fileobjects_total with
  | some base => fl.finishListing base
  | none =>
      let fl1 := { fl with _fileobjects_total := some ([] : List FileObject) }
      match fl1.listing with
      | (Except.error e, fl2) => (Except.error e, fl2)
      | (Except.ok items, fl2) =>
          match buildObjects items with
          | Except.error e => (Except.error e, fl2)
          | Except.ok base => fl2.finishListing base

/-- Models `FileListing.files_walk_total` (lines 142-153): builds a fresh
(uncached) collection from `walk()`, then sorts/reverses and updates
`_results_walk_total`.  As at line 129, the `FileObject(..., site=...)`
construction raises `TypeError` on the first name. -/
def FileListing.files_walk_total (fl : FileListing) (fuel : Nat) :
    Except PyErr (List FileObject) × FileListing :=
  match fl.walk fuel with
  | (Except.error e, fl1) => (Except.error e, fl1)
  | (Except.ok items, fl1) =>
      match buildObjects items with
      | Except.error e => (Except.error e, fl1)
      | Except.ok files0 =>
          let files2 := fl1.applySorting files0
          (Except.ok files2, { fl1 with _results_walk_total := some files2.length })

/-- Models `FileListing.files_listing_filtered` (lines 155-162): applies the
filter predicate when present, otherwise passes the total collection through
unchanged; updates `_results_listing_filtered` on success. -/
def FileListing.files_listing_filtered (fl : FileListing) :
    Except PyErr (List FileObject) × FileListing :=
  match fl.filter_func with
  | some p =>
      match fl.files_listing_total with
      | (Except.error e, fl1) => (Except.error e, fl1)
      | (Except.ok l, fl1) =>
          let l2 := l.filter p
          (Except.ok l2, { fl1 with _results_listing_filtered := some l2.length })
  | none =>
      match fl.files_listing_total with
      | (Except.error e, fl1) => (Except.error e, fl1)
      | (Except.ok l, fl1) =>
          (Except.ok l, { fl1 with _results_listing_filtered := some l.length })

/-- Models `FileListing.files_walk_filtered` (lines 164-171): like
`files_listing_filtered` but over the walk collection; on success assigns
the instance attribute `_results_walk_filtered` (making it present). -/
def FileListing.files_walk_filtered (fl : FileListing) (fuel : Nat) :
    Except PyErr (List FileObject) × FileListing :=
  match fl.filter_func with
  | some p =>
      match fl.files_walk_total fuel with
      | (Except.error e, fl1) => (Except.error e, fl1)
      | (Except.ok l, fl1) =>
          let l2 := l.filter p
          (Except.ok l2, { fl1 with _results_walk_filtered := some (some l2.length) })
  | none =>
      match fl.files_walk_total fuel with
      | (Except.error e, fl1) => (Except.error e, fl1)
      | (Except.ok l, fl1) =>
          (Except.ok l, { fl1 with _results_walk_filtered := some (some l.length) })

/-- Models `FileListing.results_listing_total` (lines 173-177): the memoized
count when set, otherwise the length of a fresh `files_listing_total()`
(whose call also sets the cache). -/
def FileListing.results_listing_total (fl : FileListing) : Except PyErr Nat × FileListing :=
  match fl._results_listing_total with
  | some n => (Except.ok n, fl)
  | none =>
      match fl.files_listing_total with
      | (Except.error e, fl1) => (Except.error e, fl1)
      | (Except.ok l, fl1) => (Except.ok l.length, fl1)

/-- Models `FileListing.results_walk_total` (lines 179-183). -/
def FileListing.results_walk_total (fl : FileListing) (fuel : Nat) :
    Except PyErr Nat × FileListing :=
  match fl._results_walk_total with
  | some n => (Except.ok n, fl)
  | none =>
      match fl.files_walk_total fuel with
      | (Except.error e, fl1) => (Except.error e, fl1)
      | (Except.ok l, fl1) => (Except.ok l.length, fl1)

/-- Models `FileListing.results_listing_filtered` (lines 185-189). -/
def FileListing.results_listing_filtered (fl : FileListing) :
    Except PyErr Nat × FileListing :=
  match fl._results_listing_filtered with
  | some n => (Except.ok n, fl)
  | none =>
      match fl.files_listing_filtered with
      | (Except.error e, fl1) => (Except.error e, fl1)
      | (Except.ok l, fl1) => (Except.ok l.length, fl1)

/-- Models `FileListing.results_walk_filtered` (lines 191-195).  The first
step reads `self._results_walk_filtered`; when the attribute was never
assigned (its only declaration was mistyped as `_results_walk_total` at
line 45) the read itself raises `AttributeError`.  When present and not
`None` the memoized count is returned; the compute branch mirrors the
source's `is not None` test even though it is unreachable through the API. -/
def FileListing.results_walk_filtered (fl : FileListing) (fuel : Nat) :
    Except PyErr Nat × FileListing :=
  match fl._results_walk_filtered with
  | none => (Except.error PyErr.attributeError, fl)
  | some (some n) => (Except.ok n, fl)
  | some none =>
      match fl.files_walk_filtered fuel with
      | (Except.error e, fl1) => (Except.error e, fl1)
      | (Except.ok l, fl1) => (Except.ok l.length, fl1)

/-! ### Concrete backends and listings used as test inputs -/

/-- A backend that reports every path as a non-directory, with nothing in it. -/
def stTrivial : Storage :=
  { isdir := fun _ => false
    listdir := fun _ => Except.ok ([], [])
    fexists := fun _ => false
    size := fun _ => 0
    modified_time := fun _ => 0 }

/-- A site over `stTrivial` with an empty root directory prefix. -/
def siteTrivial : Site :=
  { directory := "", storage := stTrivial, attrKey := fun _ _ => 0 }

/-- A backend where `root` is a folder directly containing one file `a.txt`. -/
def stOneFile : Storage :=
  { isdir := fun p => p == "root"
    listdir := fun p => if p == "root" then Except.ok ([], ["a.txt"]) else Except.ok ([], [])
    fexists := fun _ => false
    size := fun _ => 0
    modified_time := fun _ => 0 }

/-- A site over `stOneFile`. -/
def siteOneFile : Site :=
  { directory := "", storage := stOneFile, attrKey := fun _ _ => 0 }

/-- A fresh `FileListing` over the folder `root` containing just `a.txt`. -/
def flOneFile : FileListing := FileListing.init "root" none none none siteOneFile

/-- The tree `root/(a.txt, sub/(b.txt))` of the spec's walk example. -/
def stTree : Storage :=
  { isdir := fun p => p == "root" || p == "root/sub"
    listdir := fun p =>
      if p == "root" then Except.ok (["sub"], ["a.txt"])
      else if p == "root/sub" then Except.ok ([], ["b.txt"])
      else Except.ok ([], [])
    fexists := fun _ => false
    size := fun _ => 0
    modified_time := fun _ => 0 }

/-- A site over `stTree` whose configured root directory is `root/`, so that
walk results are root-relative names. -/
def siteTree : Site :=
  { directory := "root/", storage := stTree, attrKey := fun _ _ => 0 }

/-- A fresh `FileListing` over the example tree. -/
def flTree : FileListing := FileListing.init "root" none none none siteTree

/-- A literal `FileObject` (all memoization slots empty) used to seed cached
collections. -/
def foLit (p : String) : FileObject :=
  { path := p
    head := "root"
    filename := p
    filename_lower := p
    filename_root := p
    extension := ""
    mimetype := none
    _filetype_stored := none
    _filesize_stored := none
    _date_stored := none
    _exists_stored := none
    _is_folder_stored := none }

/-- First seeded entry. -/
def foA : FileObject := foLit "root/a"

/-- Second seeded entry. -/
def foB : FileObject := foLit "root/b"

/-- A `FileListing` in the state the spec intends after a successful first
`files_listing_total()` call: the base-collection cache holds two entries;
no sorting key is set and the order is descending. -/
def flSeed : FileListing :=
  { FileListing.init "root" none none (some "desc") siteTrivial with
      _fileobjects_total := some [foA, foB] }

/-- Like `flSeed` but with a sorting key set and no order yet. -/
def flSort : FileListing :=
  { FileListing.init "root" none (some "date") none siteTrivial with
      _fileobjects_total := some [foA, foB] }

/-- A backend whose directory listing always fails with a decode error while
`isdir` reports true: the `isEmpty`-under-exotic-encodings scenario. -/
def stDecodeFail : Storage :=
  { isdir := fun _ => true
    listdir := fun _ => Except.error PyErr.unicodeDecodeError
    fexists := fun _ => true
    size := fun _ => 0
    modified_time := fun _ => 0 }

/-- The ambient environment over `stDecodeFail`. -/
def envDecodeFail : Env :=
  { storage := stDecodeFail
    get_file_type := fun _ => "File"
    guess_type := fun _ => none
    directory := "" }

/-- A fresh `FileObject` over `envDecodeFail`. -/
def foX : FileObject := FileObject.init envDecodeFail "root/x"

/-! ### Helper lemmas -/

/-- Projecting the annotated list back to its elements recovers the input
sequence. -/
theorem annotate_map_snd {α : Type v} {K : Type u} (key : α → K) :
    ∀ (i : Nat) (l : List α), (annotate key i l).map (fun t => t.2) = l
  | _, [] => rfl
  | i, a :: rest => by
      simp [annotate, annotate_map_snd key (i + 1) rest]

/-- The auxiliary list built by `sort_by_attr` is sorted by the
lexicographic order on (attribute value, original index). -/
theorem sortIntermed_sorted {α K : Type} [LinearOrder K] (key : α → K) (seq : List α) :
    List.Sorted lePairNat ((sortIntermed key seq).map (fun t => t.1)) := by
  have h := List.sorted_insertionSort leTriple (annotate key 0 seq)
  exact List.Pairwise.map _ (fun a b hab => hab) h

/-- `sort_by_attr` permutes its input. -/
theorem sort_by_attr_perm {α K : Type} [LinearOrder K] (key : α → K) (seq : List α) :
    (sort_by_attr key seq).Perm seq := by
  have h1 : (sortIntermed key seq).Perm (annotate key 0 seq) :=
    List.perm_insertionSort _ _
  have h2 := h1.map (fun t => t.2)
  rw [annotate_map_snd] at h2
  exact h2

/-- `is_folder` never changes the path of the object. -/
theorem is_folder_path (fo : FileObject) (env : Env) :
    ((fo.is_folder env).2.1).path = fo.path := by
  cases h : fo._is_folder_stored <;> simp [FileObject.is_folder, h]

/-- After a first `filetype` access, a later access issues no backend query,
returns the same value, and leaves the object unchanged — whatever the
backend looks like by then. -/
theorem filetype_snapshot (fo : FileObject) (env env2 : Env) :
    FileObject.filetype (FileObject.filetype fo env).2.1 env2 =
      ((FileObject.filetype fo env).1, (FileObject.filetype fo env).2.1, ([] : List Query)) := by
  cases h : fo._filetype_stored with
  | some t => simp [FileObject.filetype, h]
  | none =>
      cases h2 : fo._is_folder_stored with
      | some b => simp [FileObject.filetype, FileObject.is_folder, h, h2]
      | none => simp [FileObject.filetype, FileObject.is_folder, h, h2]

/-- After a first `filesize` access, a later access issues no backend query,
returns the same value, and leaves the object unchanged. -/
theorem filesize_snapshot (fo : FileObject) (env env2 : Env) :
    FileObject.filesize (FileObject.filesize fo env).2.1 env2 =
      ((FileObject.filesize fo env).1, (FileObject.filesize fo env).2.1, ([] : List Query)) := by
  cases h : fo._filesize_stored with
  | some n => simp [FileObject.filesize, h]
  | none =>
      cases h2 : fo._exists_stored with
      | some b => cases b <;> simp [FileObject.filesize, FileObject.fexists, h, h2]
      | none =>
          cases hb : env.storage.fexists fo.path <;>
            simp [FileObject.filesize, FileObject.fexists, h, h2, hb]

/-- After a first `date` access, a later access issues no backend query,
returns the same value, and leaves the object unchanged. -/
theorem date_snapshot (fo : FileObject) (env env2 : Env) :
    FileObject.date (FileObject.date fo env).2.1 env2 =
      ((FileObject.date fo env).1, (FileObject.date fo env).2.1, ([] : List Query)) := by
  cases h : fo._date_stored with
  | some d => simp [FileObject.date, h]
  | none =>
      cases h2 : fo._exists_stored with
      | some b => cases b <;> simp [FileObject.date, FileObject.fexists, h, h2]
      | none =>
          cases hb : env.storage.fexists fo.path <;>
            simp [FileObject.date, FileObject.fexists, h, h2, hb]

/-- After a first `exists` access, a later access issues no backend query,
returns the same value, and leaves the object unchanged. -/
theorem fexists_snapshot (fo : FileObject) (env env2 : Env) :
    FileObject.fexists (FileObject.fexists fo env).2.1 env2 =
      ((FileObject.fexists fo env).1, (FileObject.fexists fo env).2.1, ([] : List Query)) := by
  cases h : fo._exists_stored with
  | some b => simp [FileObject.fexists, h]
  | none => simp [FileObject.fexists, h]

/-- After a first `is_folder` access, a later access issues no backend
query, returns the same value, and leaves the object unchanged. -/
theorem is_folder_snapshot (fo : FileObject) (env env2 : Env) :
    FileObject.is_folder (FileObject.is_folder fo env).2.1 env2 =
      ((FileObject.is_folder fo env).1, (FileObject.is_folder fo env).2.1, ([] : List Query)) := by
  cases h : fo._is_folder_stored with
  | some b => simp [FileObject.is_folder, h]
  | none => simp [FileObject.is_folder, h]

/-- The query log accumulated by the `delete_versions` loop: exactly one
attempted deletion per version path, in order, appended to the incoming
log. -/
theorem foldl_deleteStep_log (versions : List String) :
    ∀ (fs : List String) (log : List Query),
      (versions.foldl deleteStep (fs, log)).2 = log ++ versions.map Query.q_delete := by
  induction versions with
  | nil => intro fs log; simp
  | cons v rest ih =>
      intro fs log
      simp only [List.foldl, List.map]
      cases h : storage_delete v fs with
      | ok fs2 =>
          simp only [deleteStep, h]
          rw [ih]
          simp
      | error e =>
          simp only [deleteStep, h]
          rw [ih]
          simp

/-- A successful `files_listing_total` leaves `_results_listing_total` equal
to the length of the returned collection. -/
theorem files_listing_total_ok_count (fl fl2 : FileListing) (l : List FileObject)
    (h : fl.files_listing_total = (Except.ok l, fl2)) :
    fl2._results_listing_total = some l.length := by
  unfold FileListing.files_listing_total at h
  split at h
  · simp only [FileListing.finishListing] at h
    injection h with h1 h2
    injection h1 with h1
    subst h1 h2
    rfl
  · dsimp only at h
    split at h
    · exact absurd h (by simp)
    · split at h
      · exact absurd h (by simp)
      · simp only [FileListing.finishListing] at h
        injection h with h1 h2
        injection h1 with h1
        subst h1 h2
        rfl

/-- A successful `files_walk_total` leaves `_results_walk_total` equal to
the length of the returned collection. -/
theorem files_walk_total_ok_count (fl fl2 : FileListing) (l : List FileObject) (fuel : Nat)
    (h : fl.files_walk_total fuel = (Except.ok l, fl2)) :
    fl2._results_walk_total = some l.length := by
  unfold FileListing.files_walk_total at h
  split at h
  · exact absurd h (by simp)
  · split at h
    · exact absurd h (by simp)
    · injection h with h1 h2
      injection h1 with h1
      subst h1 h2
      rfl

/-! ### Claim theorems -/

/-- C1: the claim says the first `files_listing_total()` call builds one
Entry per name returned by `listing()` and caches the collection.  On the
code this fails: evaluated over a folder whose listing is the single name
`a.txt`, the first call raises `TypeError` (line 129 passes `site=` to a
constructor that only accepts `path`, line 210) and leaves the cache as the
empty list assigned at line 127 — no Entry is ever built. -/
theorem c1_files_listing_total_raises_eval :
    (flOneFile.listing).1 = Except.ok ["a.txt"] ∧
    (flOneFile.files_listing_total).1 = Except.error PyErr.typeError ∧
    (flOneFile.files_listing_total).2._fileobjects_total = some [] :=
  ⟨rfl, rfl, rfl⟩

/-- C4: the claim says `results_walk_filtered()` returns the memoized count
or else computes it from `files_walk_filtered()`.  On the code, for any
freshly constructed `FileListing`, the method instead raises
`AttributeError`: the class body (line 45) declares `_results_walk_total` a
second time where `_results_walk_filtered` was meant, so the attribute read
at line 193 finds nothing. -/
theorem c4_results_walk_filtered_attribute_error (site : Site) (path : String) (fuel : Nat) :
    ((FileListing.init path none none none site).results_walk_filtered fuel).1 =
      Except.error PyErr.attributeError := rfl

/-- C6: for each of the five lazily cached Entry attributes (filetype
classification, file size, modification date, existence flag, folder flag),
any access after the first issues no backend query, returns the value the
first access produced, and leaves the Entry unchanged — even when the
backend (`env2`) has changed arbitrarily in the meantime. -/
theorem c6_lazy_attributes_snapshot (fo : FileObject) (env env2 : Env) :
    (FileObject.filetype (FileObject.filetype fo env).2.1 env2 =
      ((FileObject.filetype fo env).1, (FileObject.filetype fo env).2.1, ([] : List Query))) ∧
    (FileObject.filesize (FileObject.filesize fo env).2.1 env2 =
      ((FileObject.filesize fo env).1, (FileObject.filesize fo env).2.1, ([] : List Query))) ∧
    (FileObject.date (FileObject.date fo env).2.1 env2 =
      ((FileObject.date fo env).1, (FileObject.date fo env).2.1, ([] : List Query))) ∧
    (FileObject.fexists (FileObject.fexists fo env).2.1 env2 =
      ((FileObject.fexists fo env).1, (FileObject.fexists fo env).2.1, ([] : List Query))) ∧
    (FileObject.is_folder (FileObject.is_folder fo env).2.1 env2 =
      ((FileObject.is_folder fo env).1, (FileObject.is_folder fo env).2.1, ([] : List Query))) :=
  ⟨filetype_snapshot fo env env2, filesize_snapshot fo env env2, date_snapshot fo env env2,
   fexists_snapshot fo env env2, is_folder_snapshot fo env env2⟩

/-- C7: when the backend directory listing inside `is_empty` fails with a
decode error on a folder, `is_empty` raises the distinct
`FileSystemEncodingChanged` error instead of propagating the raw decode
failure. -/
theorem c7_is_empty_encoding_changed (fo : FileObject) (env : Env)
    (h1 : (fo.is_folder env).1 = true)
    (h2 : env.storage.listdir fo.path = Except.error PyErr.unicodeDecodeError) :
    (fo.is_empty env).1 = Except.error PyErr.fileSystemEncodingChanged := by
  have hp := is_folder_path fo env
  unfold FileObject.is_empty
  rcases hfe : fo.is_folder env with ⟨b, fo1, qs⟩
  rw [hfe] at h1 hp
  simp only at h1 hp
  subst h1
  simp only [hp, h2]

/-- Witness for C7 at a concrete folder over a backend whose listing fails
with a decode error. -/
theorem c7_witness :
    (foX.is_folder envDecodeFail).1 = true ∧
    envDecodeFail.storage.listdir foX.path = Except.error PyErr.unicodeDecodeError ∧
    (foX.is_empty envDecodeFail).1 = Except.error PyErr.fileSystemEncodingChanged :=
  ⟨rfl, rfl, c7_is_empty_encoding_changed foX envDecodeFail rfl rfl⟩

/-- C8: `delete_versions()` attempts exactly one backend deletion per
version path (first conjunct: the query log is exactly one attempt per
path, failures included), and on the concrete scenario with one deletable
and one already-missing path it completes — it is a total function, no
error escapes the per-item `try/except` — having deleted the deletable one,
although deleting the missing path failed (middle conjunct).  The last
conjunct checks `delete_admin_versions` behaves the same way. -/
theorem c8_delete_versions_best_effort :
    (∀ (versions fs : List String),
        (FileObject.delete_versions versions fs).2 = versions.map Query.q_delete) ∧
    storage_delete "root/missing" ["root/keep"] = Except.error PyErr.oserror ∧
    FileObject.delete_versions ["root/v1", "root/missing"] ["root/v1", "root/keep"] =
      (["root/keep"], [Query.q_delete "root/v1", Query.q_delete "root/missing"]) ∧
    FileObject.delete_admin_versions ["root/v1", "root/missing"] ["root/v1", "root/keep"] =
      (["root/keep"], [Query.q_delete "root/v1", Query.q_delete "root/missing"]) :=
  ⟨fun versions fs => foldl_deleteStep_log versions fs [], rfl, rfl, rfl⟩

/-- C9: over any backend that does not report the path as a directory, both
`listing()` and `walk()` of a fresh `FileListing` return the empty
sequence. -/
theorem c9_nonfolder_listing_walk_empty (site : Site) (path : String) (fuel : Nat)
    (h : site.storage.isdir path = false) :
    ((FileListing.init path none none none site).listing).1 = Except.ok [] ∧
    ((FileListing.init path none none none site).walk fuel).1 = Except.ok [] := by
  constructor
  · simp [FileListing.init, FileListing.listing, FileListing.is_folder, h]
  · simp [FileListing.init, FileListing.walk, FileListing.is_folder, h]

/-- Witness for C9 at a concrete non-folder path. -/
theorem c9_witness :
    stTrivial.isdir "somewhere" = false ∧
    ((FileListing.init "somewhere" none none none siteTrivial).listing).1 = Except.ok [] ∧
    ((FileListing.init "somewhere" none none none siteTrivial).walk 5).1 = Except.ok [] :=
  ⟨rfl, (c9_nonfolder_listing_walk_empty siteTrivial "somewhere" 5 rfl).1,
    (c9_nonfolder_listing_walk_empty siteTrivial "somewhere" 5 rfl).2⟩

/-- C2: `walk()` is a depth-first post-order traversal.  First conjunct: one
level of `_walk` appends, after all subdirectory handling, every file's
root-relative name.  Second conjunct: each subdirectory contributes its own
recursive traversal first and its own root-relative name immediately after
(children before the directory itself), before the following siblings.
Third conjunct: on the concrete tree `root/(a.txt, sub/(b.txt))` the result
is exactly `sub/b.txt`, then `sub`, then `a.txt`. -/
theorem c2_walk_postorder :
    (∀ (st : Storage) (dir : String) (fuel : Nat) (path : String)
        (ds fs l1 : List String),
        st.listdir path = Except.ok (ds, fs) →
        walkDirs (walkAux st dir fuel) dir path ds = Except.ok l1 →
        walkAux st dir (fuel + 1) path =
          Except.ok (l1 ++ fs.map (fun f => path_strip (pathJoin path f) dir))) ∧
    (∀ (recurse : String → Except PyErr (List String)) (dir path d : String)
        (rest sub l2 : List String),
        recurse (pathJoin path d) = Except.ok sub →
        walkDirs recurse dir path rest = Except.ok l2 →
        walkDirs recurse dir path (d :: rest) =
          Except.ok (sub ++ [path_strip (pathJoin path d) dir] ++ l2)) ∧
    (flTree.walk 3).1 = Except.ok ["sub/b.txt", "sub", "a.txt"] := by
  refine ⟨?_, ?_, ?_⟩
  · intro st dir fuel path ds fs l1 h1 h2
    simp only [walkAux, walkStep, h1, h2]
  · intro recurse dir path d rest sub l2 h1 h2
    simp only [walkDirs, h1, h2]
  · rfl

/-- Witness for C2, instantiating the level equation on the concrete tree. -/
theorem c2_witness :
    stTree.listdir "root" = Except.ok (["sub"], ["a.txt"]) ∧
    walkDirs (walkAux stTree "root/" 1) "root/" "root" ["sub"] =
      Except.ok ["sub/b.txt", "sub"] ∧
    walkAux stTree "root/" 2 "root" =
      Except.ok (["sub/b.txt", "sub"] ++
        ["a.txt"].map (fun f => path_strip (pathJoin "root" f) "root/")) :=
  ⟨rfl, rfl,
    c2_walk_postorder.1 stTree "root/" 1 "root" ["sub"] ["a.txt"] ["sub/b.txt", "sub"] rfl rfl⟩

/-- C3 counterexample: the claim says the cached base collection is left
unchanged by every call.  On `flSeed` — no sorting key, descending order,
two cached entries — a single `files_listing_total()` call changes the
cache: the in-place `files.reverse()` at line 137 runs on the cache itself,
because without a sort no fresh copy was made. -/
theorem c3_counterexample :
    (flSeed.files_listing_total).2._fileobjects_total ≠ flSeed._fileobjects_total := by
  decide

/-- C3 as amended: sorting (when a sorting key is set) is applied to a fresh
copy and the cache keeps the unsorted base collection, but the descending
reversal is applied in place to whatever list is current — so with no
(truthy) sorting key and descending order, a call reverses the cached
collection itself. -/
theorem c3_cache_mutation (fl : FileListing) (l : List FileObject)
    (h : fl._fileobjects_total = some l) :
    (fl.files_listing_total).2._fileobjects_total =
      some (if truthyStr fl.sorting_by then l
            else if fl.sorting_order = some "desc" then l.reverse else l) := by
  unfold FileListing.files_listing_total
  rw [h]
  cases htr : truthyStr fl.sorting_by with
  | true => simp [FileListing.finishListing, htr]
  | false => simp [FileListing.finishListing, FileListing.applySorting, htr]

/-- Witness for C3's amended statement on the seeded listing. -/
theorem c3_witness :
    flSeed._fileobjects_total = some [foA, foB] ∧
    (flSeed.files_listing_total).2._fileobjects_total =
      some (if truthyStr flSeed.sorting_by then [foA, foB]
            else if flSeed.sorting_order = some "desc" then [foA, foB].reverse
            else [foA, foB]) :=
  ⟨rfl, c3_cache_mutation flSeed [foA, foB] rfl⟩

/-- C5: the sort used by the listing orders entries ascending by the pair
(attribute value, original index) — the auxiliary list is sorted under that
lexicographic order and the output is a permutation of the input — and the
descending result of `files_listing_total` is the exact element-wise
reverse of the ascending result (same listing state, order flipped to
`"desc"`), tie order included, because descending order is implemented as a
plain reversal of the ascending sort. -/
theorem c5_sort_pair_order_and_reversal :
    (∀ (K : Type) [_inst : LinearOrder K] (α : Type) (key : α → K) (seq : List α),
        List.Sorted lePairNat ((sortIntermed key seq).map (fun t => t.1)) ∧
        (sort_by_attr key seq).Perm seq) ∧
    (∀ (fl : FileListing) (l : List FileObject) (s : String),
        fl._fileobjects_total = some l → fl.sorting_by = some s → s.isEmpty = false →
        ({ fl with sorting_order := some "desc" }).files_listing_total.1 =
          (({ fl with sorting_order := none }).files_listing_total.1).map List.reverse) := by
  constructor
  · intro K _inst α key seq
    exact ⟨sortIntermed_sorted key seq, sort_by_attr_perm key seq⟩
  · intro fl l s h1 h2 h3
    obtain ⟨p, ff, sb, so, st, r1, r2, r3, r4, fot, isf⟩ := fl
    simp only at h1 h2
    subst h1 h2
    simp [FileListing.files_listing_total, FileListing.finishListing,
      FileListing.applySorting, truthyStr, h3, Except.map]

/-- Witness for C5's descending-reversal part on a seeded listing with a
sorting key. -/
theorem c5_witness :
    flSort._fileobjects_total = some [foA, foB] ∧
    flSort.sorting_by = some "date" ∧
    "date".isEmpty = false ∧
    ({ flSort with sorting_order := some "desc" }).files_listing_total.1 =
      (({ flSort with sorting_order := none }).files_listing_total.1).map List.reverse :=
  ⟨rfl, rfl, rfl, c5_sort_pair_order_and_reversal.2 flSort [foA, foB] "date" rfl rfl rfl⟩

/-- C10: with no filter predicate, `files_listing_filtered()` returns
exactly the collection `files_listing_total()` returns, and
`files_walk_filtered()` exactly `files_walk_total()` (first two conjuncts:
identical values, errors included); and on success the filtered count cache
equals the corresponding total count cache, both being the length of the
same returned collection (last two conjuncts). -/
theorem c10_no_filter_filtered_equals_total (fl : FileListing) (fuel : Nat)
    (h : fl.filter_func = none) :
    ((fl.files_listing_filtered).1 = (fl.files_listing_total).1) ∧
    ((fl.files_walk_filtered fuel).1 = (fl.files_walk_total fuel).1) ∧
    (∀ (l : List FileObject) (fl2 : FileListing),
        fl.files_listing_filtered = (Except.ok l, fl2) →
        fl2._results_listing_filtered = some l.length ∧
        fl2._results_listing_total = some l.length) ∧
    (∀ (l : List FileObject) (fl2 : FileListing),
        fl.files_walk_filtered fuel = (Except.ok l, fl2) →
        fl2._results_walk_filtered = some (some l.length) ∧
        fl2._results_walk_total = some l.length) := by
  refine ⟨?_, ?_, ?_, ?_⟩
  · unfold FileListing.files_listing_filtered
    rw [h]
    rcases hty : fl.files_listing_total with ⟨r, fl1⟩
    cases r <;> simp
  · unfold FileListing.files_walk_filtered
    rw [h]
    rcases hty : fl.files_walk_total fuel with ⟨r, fl1⟩
    cases r <;> simp
  · intro l fl2 hok
    unfold FileListing.files_listing_filtered at hok
    rw [h] at hok
    rcases hty : fl.files_listing_total with ⟨r, fl1⟩
    rw [hty] at hok
    cases r with
    | error e => exact absurd hok (by simp)
    | ok l0 =>
        simp only at hok
        injection hok with hv hs
        injection hv with hv
        subst hv
        subst hs
        refine ⟨rfl, ?_⟩
        exact files_listing_total_ok_count fl fl1 l0 hty
  · intro l fl2 hok
    unfold FileListing.files_walk_filtered at hok
    rw [h] at hok
    rcases hty : fl.files_walk_total fuel with ⟨r, fl1⟩
    rw [hty] at hok
    cases r with
    | error e => exact absurd hok (by simp)
    | ok l0 =>
        simp only at hok
        injection hok with hv hs
        injection hv with hv
        subst hv
        subst hs
        refine ⟨rfl, ?_⟩
        exact files_walk_total_ok_count fl fl1 l0 fuel hty

/-- Witness for C10 on a fresh unfiltered listing. -/
theorem c10_witness :
    ((FileListing.init "root" none none none siteTrivial).files_listing_filtered).1 =
      ((FileListing.init "root" none none none siteTrivial).files_listing_total).1 :=
  (c10_no_filter_filtered_equals_total (FileListing.init "root" none none none siteTrivial)
    2 rfl).1
